import Mathlib

/-!
Verification of the election-poster-generator client (src/App.tsx).

The application is a single React component whose state is twelve
useState fields.  We embed that state as an explicit structure and each
event handler (handleImageChange, handleGenerateClick, handleDownload,
handleReset, the thumbnail onClick, and the text-field onChange handlers)
as a pure transition function.  Asynchronous remote outcomes (the
Promise.all of the two generation calls, the two Image load/error event
pairs, canvas-context acquisition) are passed in as explicit environment
values.  The canvas side effects of handleDownload are recorded as a
trace of operations in source order, and the produced artifact (canvas
dimensions, filename, encoding format) is returned explicitly.
Machine reals (JS numbers) are embedded as rationals: every arithmetic
expression in the source is exact at these magnitudes.
-/

namespace PosterApp

/-- The twelve useState fields of the App component, in declaration order.
File handles and image references are opaque strings. -/
structure AppState where
  imageFile : Option String
  previewUrl : Option String
  name : String
  symbol : String
  district : String
  selectedFont : String
  generatedPosters : Option (List String)
  selectedPoster : Option String
  symbolImageUrl : Option String
  isLoading : Bool
  isDownloading : Bool
  error : Option String
deriving DecidableEq, Repr

/-- The initial values passed to useState. -/
def initialState : AppState :=
  { imageFile := none
    previewUrl := none
    name := ""
    symbol := ""
    district := ""
    selectedFont := "Cairo"
    generatedPosters := none
    selectedPoster := none
    symbolImageUrl := none
    isLoading := false
    isDownloading := false
    error := none }

/-- URL.createObjectURL: an opaque blob URL derived from the file. -/
def createObjectURL (f : String) : String := "blob:" ++ f

/-- handleImageChange: on a non-null file, set the file and preview and
clear the generation results and the error; on null, do nothing. -/
def handleImageChange (file : Option String) (s : AppState) : AppState :=
  match file with
  | some f =>
      { s with imageFile := some f
               previewUrl := some (createObjectURL f)
               generatedPosters := none
               selectedPoster := none
               symbolImageUrl := none
               error := none }
  | none => s

/-- The onChange handler of the name TextInput. -/
def updateName (v : String) (s : AppState) : AppState := { s with name := v }

/-- The onChange handler of the district TextInput. -/
def updateDistrict (v : String) (s : AppState) : AppState := { s with district := v }

/-- The onChange handler of the symbol TextInput. -/
def updateSymbol (v : String) (s : AppState) : AppState := { s with symbol := v }

/-- The onChange handler of the font select element. -/
def updateFont (v : String) (s : AppState) : AppState := { s with selectedFont := v }

/-- The guard of handleGenerateClick (and the isFormComplete flag):
JS truthiness of imageFile, name, symbol and district. -/
def formComplete (s : AppState) : Bool :=
  s.imageFile.isSome && !s.name.isEmpty && !s.symbol.isEmpty && !s.district.isEmpty

/-- Error message of the empty-field guard. -/
def fillAllFieldsMsg : String := "Please fill all fields: photo, name, symbol, and district."

/-- Error message thrown when generatePoster returns null or an empty array. -/
def noPostersMsg : String := "The AI model did not return any poster images. Please try again."

/-- Error message thrown when generateSymbolImage returns a null result. -/
def noIconMsg : String := "The AI model failed to generate an icon for the symbol."

/-- Outcome of `Promise.all([generatePoster(...), generateSymbolImage(symbol)])`:
either a rejection (caught with its Error message) or the pair of resolved
values, each of which may be null. -/
def GenOutcome := Except String (Option (List String) × Option String)

/-- handleGenerateClick: guard on the form, clear previous results, await
both remote calls, store posters (selecting the first) and the icon, or
throw into the catch block which records the error; finally clears
isLoading on every path past the guard. -/
def handleGenerateClick (s : AppState) (gen : GenOutcome) : AppState :=
  if !(formComplete s) then
    { s with error := some fillAllFieldsMsg }
  else
    let s1 := { s with isLoading := true, error := none,
                       generatedPosters := none, selectedPoster := none,
                       symbolImageUrl := none }
    match gen with
    | .error msg => { s1 with error := some msg, isLoading := false }
    | .ok (posterResults, symbolImageResult) =>
        match posterResults with
        | some posters =>
            if posters.length > 0 then
              let s2 := { s1 with generatedPosters := some posters,
                                  selectedPoster := posters.head? }
              match symbolImageResult with
              | some u => { s2 with symbolImageUrl := some u, isLoading := false }
              | none => { s2 with error := some noIconMsg, isLoading := false }
            else
              { s1 with error := some noPostersMsg, isLoading := false }
        | none => { s1 with error := some noPostersMsg, isLoading := false }

/-- The thumbnail onClick handler: setSelectedPoster(poster). -/
def selectPoster (p : String) (s : AppState) : AppState := { s with selectedPoster := some p }

/-- handleReset: clears every content field and isLoading; it does not
touch selectedFont or isDownloading. -/
def handleReset (s : AppState) : AppState :=
  { s with imageFile := none
           previewUrl := none
           name := ""
           symbol := ""
           district := ""
           generatedPosters := none
           selectedPoster := none
           symbolImageUrl := none
           error := none
           isLoading := false }

/-- Whether the result view (selected poster, thumbnails, download button)
is rendered: the JSX condition is
`!isLoading && !error && generatedPosters && selectedPoster`. -/
def showsResults (s : AppState) : Bool :=
  !s.isLoading && s.error.isNone && s.generatedPosters.isSome && s.selectedPoster.isSome

/-- Which of the two remote images a drawImage call targets. -/
inductive ImgKind where
  | poster
  | symbol
deriving DecidableEq, Repr

/-- A canvas 2d-context operation issued by handleDownload, in source
order.  Style assignments are recorded as operations so that ordering
of paint-state changes relative to draws is observable. -/
inductive CanvasOp where
  | drawImage (img : ImgKind) (x y w h : ℚ)
  | setShadowColor (c : String)
  | setShadowBlur (v : ℚ)
  | setShadowOffsetX (v : ℚ)
  | setShadowOffsetY (v : ℚ)
  | setFont (weight : ℕ) (sizePx : ℚ) (family : String)
  | setFillStyle (c : String)
  | setTextAlign (a : String)
  | setDirection (d : String)
  | fillText (text : String) (x y : ℚ)
deriving DecidableEq, Repr

/-- The file produced by a successful download: canvas dimensions,
the fixed download filename, and the toDataURL encoding format. -/
structure Artifact where
  width : ℚ
  height : ℚ
  filename : String
  format : String
deriving DecidableEq, Repr

/-- Environment of one handleDownload invocation: whether the poster
image load fires onload (with its natural width and height) or onerror,
whether the symbol image load fires onload, and whether
canvas.getContext returns a context. -/
structure DownloadEnv where
  posterLoad : Option (ℚ × ℚ)
  symbolLoadOk : Bool
  ctxAvailable : Bool

/-- Result of one handleDownload invocation: the state after all setState
calls of the taken path, the canvas operations issued, and the artifact
handed to the save flow if one was produced. -/
structure DownloadResult where
  state : AppState
  ops : List CanvasOp
  artifact : Option Artifact
deriving Repr

/-- Messages of the three failure paths of handleDownload. -/
def posterLoadFailMsg : String := "Could not load poster image to create download file."
def iconLoadFailMsg : String := "Could not load symbol icon to create download file."
def noCtxMsg : String := "Could not create canvas context for download."

/-- handleDownload: guard on selectedPoster and symbolImageUrl, set
isDownloading and clear the error, load the poster image, then the symbol
image, create the canvas at width 1500 and height scaled by 1500/width,
acquire the context, and issue the draw sequence of the source in order;
each terminal path clears isDownloading. -/
def handleDownload (s : AppState) (env : DownloadEnv) : DownloadResult :=
  if s.selectedPoster.isNone || s.symbolImageUrl.isNone then
    ⟨s, [], none⟩
  else
    let s1 := { s with isDownloading := true, error := none }
    match env.posterLoad with
    | none =>
        ⟨{ s1 with error := some posterLoadFailMsg, isDownloading := false }, [], none⟩
    | some (w, h) =>
        if env.symbolLoadOk then
          let scale : ℚ := 1500 / w
          let canvasWidth : ℚ := 1500
          let canvasHeight : ℚ := h * scale
          if env.ctxAvailable then
            let nameFontSize : ℚ := canvasWidth / 14
            let nameY : ℚ := canvasHeight * 0.82
            let districtText : String := "مرشح عن دائرة " ++ s.district
            let districtFontSize : ℚ := canvasWidth / 35
            let districtY : ℚ := nameY + nameFontSize / 2
            let symbolSize : ℚ := canvasWidth / 9
            let symbolX : ℚ := canvasWidth / 2 - symbolSize / 2
            let symbolY : ℚ := districtY + districtFontSize
            ⟨{ s1 with isDownloading := false },
             [ .drawImage .poster 0 0 canvasWidth canvasHeight,
               .setShadowColor "rgba(0, 0, 0, 0.4)",
               .setShadowBlur 10,
               .setShadowOffsetX 2,
               .setShadowOffsetY 2,
               .setFont 900 nameFontSize s.selectedFont,
               .setFillStyle "#FFFFFF",
               .setTextAlign "center",
               .setDirection "rtl",
               .fillText s.name (canvasWidth / 2) nameY,
               .setFont 700 districtFontSize s.selectedFont,
               .setFillStyle "#FFFFFF",
               .fillText districtText (canvasWidth / 2) districtY,
               .setShadowColor "transparent",
               .drawImage .symbol symbolX symbolY symbolSize symbolSize ],
             some ⟨canvasWidth, canvasHeight, "my-election-poster.png", "image/png"⟩⟩
          else
            ⟨{ s1 with error := some noCtxMsg, isDownloading := false }, [], none⟩
        else
          ⟨{ s1 with error := some iconLoadFailMsg, isDownloading := false }, [], none⟩

/-- The geometry of every overlay element, as the spec names it. -/
structure LayoutGeometry where
  canvasWidth : ℚ
  canvasHeight : ℚ
  nameFontSizePx : ℚ
  nameBaselineY : ℚ
  captionFontSizePx : ℚ
  captionBaselineY : ℚ
  iconSizePx : ℚ
  iconX : ℚ
  iconY : ℚ
deriving DecidableEq, Repr

/-- The Layout Calculator exactly as the specification states it
(spec section 4.2), written from the words of the spec so that the
geometry the download routine actually computes can be compared
against it. -/
def layoutCalculatorSpec (W H : ℚ) : LayoutGeometry :=
  let T : ℚ := 1500
  let scale : ℚ := T / W
  let canvasWidth : ℚ := T
  let canvasHeight : ℚ := H * scale
  let nameFontSizePx : ℚ := canvasWidth / 14
  let nameBaselineY : ℚ := canvasHeight * 0.82
  let captionFontSizePx : ℚ := canvasWidth / 35
  let captionBaselineY : ℚ := nameBaselineY + nameFontSizePx / 2
  let iconSizePx : ℚ := canvasWidth / 9
  let iconX : ℚ := canvasWidth / 2 - iconSizePx / 2
  let iconY : ℚ := captionBaselineY + captionFontSizePx
  ⟨canvasWidth, canvasHeight, nameFontSizePx, nameBaselineY,
   captionFontSizePx, captionBaselineY, iconSizePx, iconX, iconY⟩

/-- The fillText calls of a trace, in order, with their position. -/
def fillTextCalls : List CanvasOp → List (String × ℚ × ℚ)
  | [] => []
  | .fillText s x y :: t => (s, x, y) :: fillTextCalls t
  | _ :: t => fillTextCalls t

/-- The font assignments of a trace, in order. -/
def fontAssigns : List CanvasOp → List (ℕ × ℚ × String)
  | [] => []
  | .setFont w sz fam :: t => (w, sz, fam) :: fontAssigns t
  | _ :: t => fontAssigns t

/-- The first drawImage call targeting the symbol icon, if any:
its x, y, width and height. -/
def symbolDraw : List CanvasOp → Option (ℚ × ℚ × ℚ × ℚ)
  | [] => none
  | .drawImage .symbol x y w h :: _ => some (x, y, w, h)
  | _ :: t => symbolDraw t

/-- The subsequence of operations whose relative order the spec
constrains: image draws, text draws, and shadow paint-state toggles
(the shadow state is enabled by assigning a visible shadowColor and
disabled by assigning transparent). -/
def keyOps : List CanvasOp → List CanvasOp
  | [] => []
  | .drawImage i x y w h :: t => .drawImage i x y w h :: keyOps t
  | .fillText s x y :: t => .fillText s x y :: keyOps t
  | .setShadowColor c :: t => .setShadowColor c :: keyOps t
  | _ :: t => keyOps t

/-- The states the App component can be in, starting from the useState
initial values and closed under every event handler.  The select step
carries the render-time fact that a thumbnail button exists only for a
member of generatedPosters. -/
inductive Reachable : AppState → Prop where
  | init : Reachable initialState
  | imageChange (f : Option String) {s : AppState} :
      Reachable s → Reachable (handleImageChange f s)
  | editName (v : String) {s : AppState} :
      Reachable s → Reachable (updateName v s)
  | editDistrict (v : String) {s : AppState} :
      Reachable s → Reachable (updateDistrict v s)
  | editSymbol (v : String) {s : AppState} :
      Reachable s → Reachable (updateSymbol v s)
  | editFont (v : String) {s : AppState} :
      Reachable s → Reachable (updateFont v s)
  | generate (gen : GenOutcome) {s : AppState} :
      Reachable s → Reachable (handleGenerateClick s gen)
  | select (p : String) (l : List String) {s : AppState} :
      Reachable s → s.generatedPosters = some l → p ∈ l →
      Reachable (selectPoster p s)
  | reset {s : AppState} :
      Reachable s → Reachable (handleReset s)
  | download (env : DownloadEnv) {s : AppState} :
      Reachable s → Reachable ((handleDownload s env).state)

/-- A form-complete state holding a selected poster and an icon, used to
instantiate theorems at a concrete input. -/
def demoState : AppState :=
  { initialState with imageFile := some "photo.jpg", name := "n", symbol := "s",
                      district := "d", selectedPoster := some "P",
                      symbolImageUrl := some "I" }

/-- C9: uploading a non-null photo sets the file and preview and clears
the generated poster set, the selected poster, the symbol icon URL and
the error, leaving name, district, symbol and the selected font (and the
two flags) unchanged; a null file changes nothing. -/
theorem c9_upload_frame (s : AppState) (f : String) :
    handleImageChange (some f) s =
      { s with imageFile := some f
               previewUrl := some (createObjectURL f)
               generatedPosters := none
               selectedPoster := none
               symbolImageUrl := none
               error := none } ∧
    handleImageChange none s = s :=
  ⟨rfl, rfl⟩

/-- C10: handleReset clears the image, preview, name, district, symbol,
poster set, selection, icon URL and error and sets isLoading to false,
while isDownloading (and selectedFont) keep their previous values — a
reset during an in-flight download leaves the downloading flag set. -/
theorem c10_reset_frame (s : AppState) :
    handleReset s =
      { imageFile := none
        previewUrl := none
        name := ""
        symbol := ""
        district := ""
        selectedFont := s.selectedFont
        generatedPosters := none
        selectedPoster := none
        symbolImageUrl := none
        isLoading := false
        isDownloading := s.isDownloading
        error := none } ∧
    (handleReset s).isDownloading = s.isDownloading :=
  ⟨rfl, rfl⟩

/-- C1 counterexample: with a complete form, when the poster call
succeeds with one candidate but the icon call resolves to null, the
operation ends with the error set — yet generatedPosters and
selectedPoster are NOT empty: the successful poster result is retained
in state, refuting the claim that all three fields end up empty. -/
theorem c1_counterexample :
    let r := handleGenerateClick
      { initialState with imageFile := some "photo.jpg", name := "N",
                          symbol := "S", district := "D" }
      (.ok (some ["posterA"], none))
    r.error = some noIconMsg ∧
    r.generatedPosters = some ["posterA"] ∧
    r.selectedPoster = some "posterA" ∧
    r.symbolImageUrl = none ∧
    ¬(r.generatedPosters = none ∧ r.selectedPoster = none ∧ r.symbolImageUrl = none) := by
  decide

/-- C1 amended: a generation in which exactly one of the two remote
results is usable ends in the failure state (error set, loading off) and
the result view is not rendered, so nothing is selectable in the UI, and
symbolImageUrl is empty; when the poster call yields no result (or the
combined await rejects) while the icon succeeded, generatedPosters and
selectedPoster are empty as well, but when the posters succeeded and
only the icon came back null, generatedPosters and selectedPoster retain
the successful posters (hidden behind the error view). -/
theorem c1_amended (s : AppState) (p u : String) (rest : List String)
    (hform : formComplete s = true) :
    (let r := handleGenerateClick s (.ok (some (p :: rest), none))
     r.error = some noIconMsg ∧ r.symbolImageUrl = none ∧ r.isLoading = false ∧
       showsResults r = false ∧ r.generatedPosters = some (p :: rest) ∧
       r.selectedPoster = some p) ∧
    (let r := handleGenerateClick s (.ok (none, some u))
     r.error = some noPostersMsg ∧ r.generatedPosters = none ∧
       r.selectedPoster = none ∧ r.symbolImageUrl = none ∧ r.isLoading = false ∧
       showsResults r = false) ∧
    (∀ msg : String,
      let r := handleGenerateClick s (.error msg)
      r.error = some msg ∧ r.generatedPosters = none ∧ r.selectedPoster = none ∧
        r.symbolImageUrl = none ∧ r.isLoading = false ∧ showsResults r = false) := by
  refine ⟨?_, ?_, fun msg => ?_⟩ <;>
    simp [handleGenerateClick, hform, showsResults]

/-- C1 amended, instantiated at a concrete complete form with one poster
candidate. -/
theorem c1_amended_witness :
    formComplete demoState = true ∧
    ((let r := handleGenerateClick demoState (.ok (some ("p1" :: []), none))
      r.error = some noIconMsg ∧ r.symbolImageUrl = none ∧ r.isLoading = false ∧
        showsResults r = false ∧ r.generatedPosters = some ("p1" :: []) ∧
        r.selectedPoster = some "p1") ∧
     (let r := handleGenerateClick demoState (.ok (none, some "u"))
      r.error = some noPostersMsg ∧ r.generatedPosters = none ∧
        r.selectedPoster = none ∧ r.symbolImageUrl = none ∧ r.isLoading = false ∧
        showsResults r = false) ∧
     (∀ msg : String,
       let r := handleGenerateClick demoState (.error msg)
       r.error = some msg ∧ r.generatedPosters = none ∧ r.selectedPoster = none ∧
         r.symbolImageUrl = none ∧ r.isLoading = false ∧ showsResults r = false)) :=
  ⟨by decide, c1_amended demoState "p1" "u" [] (by decide)⟩

/-- The download run of the scenario of spec section 8.6: a 1000 by 1000
base poster, name Test Name, district Example, both images decoding and
the context available. -/
def scenarioRun : DownloadResult :=
  handleDownload
    { initialState with name := "Test Name", district := "Example",
                        selectedPoster := some "P", symbolImageUrl := some "I" }
    ⟨some (1000, 1000), true, true⟩

/-- C2 counterexample: for the 1000 by 1000 base poster with name
Test Name and district Example, the icon top-left x computed by the
download routine is 2000/3 (about 666.67), which is more than 80 pixels
away from the claimed approximate 583 — while the claimed y does hold to
within a tenth of a pixel. -/
theorem c2_counterexample :
    symbolDraw scenarioRun.ops = some (2000 / 3, 9285 / 7, 500 / 3, 500 / 3) ∧
    (583 : ℚ) + 80 < 2000 / 3 ∧
    (1283.6 + 42.9) - 1 / 10 ≤ (9285 / 7 : ℚ) ∧ (9285 / 7 : ℚ) ≤ (1283.6 + 42.9) + 1 / 10 := by
  refine ⟨by norm_num [scenarioRun, handleDownload, symbolDraw], by norm_num,
    by norm_num, by norm_num⟩

/-- C2 amended: for the 1000 by 1000 base poster with name Test Name and
district Example, the output canvas is 1500 by 1500, the name baseline
is at y = 1230, the caption baseline at y = 8985/7 (within 0.01 of
1230 + 53.57), and the icon top-left is at x = 2000/3 (about 666.67,
equal to canvasWidth/2 minus iconSize/2) and y = 9285/7 (within 0.1 of
1283.6 + 42.9). -/
theorem c2_amended :
    scenarioRun.artifact = some ⟨1500, 1500, "my-election-poster.png", "image/png"⟩ ∧
    fillTextCalls scenarioRun.ops =
      [("Test Name", 750, 1230), ("مرشح عن دائرة " ++ "Example", 750, 8985 / 7)] ∧
    (1230 + 53.57) - 1 / 100 ≤ (8985 / 7 : ℚ) ∧ (8985 / 7 : ℚ) ≤ (1230 + 53.57) + 1 / 100 ∧
    symbolDraw scenarioRun.ops = some (2000 / 3, 9285 / 7, 500 / 3, 500 / 3) ∧
    (2000 / 3 : ℚ) = 1500 / 2 - 1500 / 9 / 2 ∧
    (1283.6 + 42.9) - 1 / 10 ≤ (9285 / 7 : ℚ) ∧ (9285 / 7 : ℚ) ≤ (1283.6 + 42.9) + 1 / 10 := by
  refine ⟨by norm_num [scenarioRun, handleDownload],
    by norm_num [scenarioRun, handleDownload, fillTextCalls],
    by norm_num, by norm_num, by norm_num [scenarioRun, handleDownload, symbolDraw],
    by norm_num, by norm_num, by norm_num⟩

/-- C3: for every positive base width W and height H, the successful
download path draws on a canvas whose geometry coincides exactly with
the Layout Calculator of the spec: width fixed at 1500, height
H * (1500 / W), name font canvasWidth/14 with baseline at
canvasHeight * 0.82 drawn at the horizontal center, caption font
canvasWidth/35 with baseline nameBaselineY + nameFontSize/2 at the
center, icon of size canvasWidth/9 at x = canvasWidth/2 - size/2 and
y = captionBaselineY + captionFontSize; the geometry is a pure function
of (W, H), so identical dimensions yield identical geometry. -/
theorem c3_layout_refines_spec (s : AppState) (W H : ℚ) (p u : String)
    (hp : s.selectedPoster = some p) (hu : s.symbolImageUrl = some u)
    (_hW : 0 < W) (_hH : 0 < H) :
    let r := handleDownload s ⟨some (W, H), true, true⟩
    let g := layoutCalculatorSpec W H
    g.canvasWidth = 1500 ∧
    r.artifact = some ⟨g.canvasWidth, g.canvasHeight, "my-election-poster.png", "image/png"⟩ ∧
    fillTextCalls r.ops =
      [(s.name, g.canvasWidth / 2, g.nameBaselineY),
       ("مرشح عن دائرة " ++ s.district, g.canvasWidth / 2, g.captionBaselineY)] ∧
    fontAssigns r.ops =
      [(900, g.nameFontSizePx, s.selectedFont), (700, g.captionFontSizePx, s.selectedFont)] ∧
    symbolDraw r.ops = some (g.iconX, g.iconY, g.iconSizePx, g.iconSizePx) ∧
    g.canvasHeight = H * (1500 / W) ∧
    g.nameFontSizePx = g.canvasWidth / 14 ∧
    g.nameBaselineY = g.canvasHeight * 0.82 ∧
    g.captionFontSizePx = g.canvasWidth / 35 ∧
    g.captionBaselineY = g.nameBaselineY + g.nameFontSizePx / 2 ∧
    g.iconSizePx = g.canvasWidth / 9 ∧
    g.iconX = g.canvasWidth / 2 - g.iconSizePx / 2 ∧
    g.iconY = g.captionBaselineY + g.captionFontSizePx := by
  simp [handleDownload, layoutCalculatorSpec, fillTextCalls, fontAssigns, symbolDraw, hp, hu]

/-- C3, instantiated at an 800 by 600 base image in a concrete state. -/
theorem c3_witness :
    demoState.selectedPoster = some "P" ∧ demoState.symbolImageUrl = some "I" ∧
    (0 : ℚ) < 800 ∧ (0 : ℚ) < 600 ∧
    (let r := handleDownload demoState ⟨some (800, 600), true, true⟩
     let g := layoutCalculatorSpec 800 600
     g.canvasWidth = 1500 ∧
     r.artifact = some ⟨g.canvasWidth, g.canvasHeight, "my-election-poster.png", "image/png"⟩ ∧
     fillTextCalls r.ops =
       [(demoState.name, g.canvasWidth / 2, g.nameBaselineY),
        ("مرشح عن دائرة " ++ demoState.district, g.canvasWidth / 2, g.captionBaselineY)] ∧
     fontAssigns r.ops =
       [(900, g.nameFontSizePx, demoState.selectedFont), (700, g.captionFontSizePx, demoState.selectedFont)] ∧
     symbolDraw r.ops = some (g.iconX, g.iconY, g.iconSizePx, g.iconSizePx) ∧
     g.canvasHeight = 600 * (1500 / 800) ∧
     g.nameFontSizePx = g.canvasWidth / 14 ∧
     g.nameBaselineY = g.canvasHeight * 0.82 ∧
     g.captionFontSizePx = g.canvasWidth / 35 ∧
     g.captionBaselineY = g.nameBaselineY + g.nameFontSizePx / 2 ∧
     g.iconSizePx = g.canvasWidth / 9 ∧
     g.iconX = g.canvasWidth / 2 - g.iconSizePx / 2 ∧
     g.iconY = g.captionBaselineY + g.captionFontSizePx) :=
  ⟨rfl, rfl, by norm_num, by norm_num,
   c3_layout_refines_spec demoState 800 600 "P" "I" rfl rfl (by norm_num) (by norm_num)⟩

/-- C4: on the successful download path the paint-order-relevant
operations are exactly, in order: draw the poster over the full canvas,
enable the drop shadow, draw the name, draw the caption under the same
shadow state, disable the shadow, draw the icon — so the shadow is
turned off strictly between the caption draw and the icon draw. -/
theorem c4_draw_order (s : AppState) (W H : ℚ) (p u : String)
    (hp : s.selectedPoster = some p) (hu : s.symbolImageUrl = some u) :
    keyOps (handleDownload s ⟨some (W, H), true, true⟩).ops =
      [ .drawImage .poster 0 0 1500 (H * (1500 / W)),
        .setShadowColor "rgba(0, 0, 0, 0.4)",
        .fillText s.name (1500 / 2) (H * (1500 / W) * 0.82),
        .fillText ("مرشح عن دائرة " ++ s.district) (1500 / 2)
          (H * (1500 / W) * 0.82 + 1500 / 14 / 2),
        .setShadowColor "transparent",
        .drawImage .symbol (1500 / 2 - 1500 / 9 / 2)
          (H * (1500 / W) * 0.82 + 1500 / 14 / 2 + 1500 / 35)
          (1500 / 9) (1500 / 9) ] := by
  simp [handleDownload, keyOps, hp, hu]

/-- C4, instantiated at a 1200 by 900 base image in a concrete state. -/
theorem c4_witness :
    demoState.selectedPoster = some "P" ∧ demoState.symbolImageUrl = some "I" ∧
    keyOps (handleDownload demoState ⟨some (1200, 900), true, true⟩).ops =
      [ .drawImage .poster 0 0 1500 (900 * (1500 / 1200)),
        .setShadowColor "rgba(0, 0, 0, 0.4)",
        .fillText demoState.name (1500 / 2) (900 * (1500 / 1200) * 0.82),
        .fillText ("مرشح عن دائرة " ++ demoState.district) (1500 / 2)
          (900 * (1500 / 1200) * 0.82 + 1500 / 14 / 2),
        .setShadowColor "transparent",
        .drawImage .symbol (1500 / 2 - 1500 / 9 / 2)
          (900 * (1500 / 1200) * 0.82 + 1500 / 14 / 2 + 1500 / 35)
          (1500 / 9) (1500 / 9) ] :=
  ⟨rfl, rfl, c4_draw_order demoState 1200 900 "P" "I" rfl rfl⟩

/-- C5: once the download guard passes, every exit path — success,
poster decode failure, icon decode failure, context unavailable — ends
with isDownloading cleared; and when no drawing context is available the
operation sets the dedicated context-unavailable message (different from
both image-load failure messages) and issues no draw call and produces
no artifact. -/
theorem c5_flag_cleared (s : AppState) (p u : String)
    (hp : s.selectedPoster = some p) (hu : s.symbolImageUrl = some u) :
    (∀ env : DownloadEnv, (handleDownload s env).state.isDownloading = false) ∧
    (∀ W H : ℚ,
      (handleDownload s ⟨some (W, H), true, false⟩).state.error = some noCtxMsg ∧
      (handleDownload s ⟨some (W, H), true, false⟩).ops = [] ∧
      (handleDownload s ⟨some (W, H), true, false⟩).artifact = none ∧
      (handleDownload s ⟨some (W, H), true, false⟩).state.error ≠
        (handleDownload s ⟨none, true, true⟩).state.error ∧
      (handleDownload s ⟨some (W, H), true, false⟩).state.error ≠
        (handleDownload s ⟨some (W, H), false, true⟩).state.error) := by
  constructor
  · intro env
    rcases env with ⟨pl, sl, ctx⟩
    rcases pl with _ | ⟨w, h⟩ <;> cases sl <;> cases ctx <;>
      simp [handleDownload, hp, hu]
  · intro W H
    refine ⟨by simp [handleDownload, hp, hu], by simp [handleDownload, hp, hu],
      by simp [handleDownload, hp, hu], ?_, ?_⟩ <;>
      simp [handleDownload, hp, hu, noCtxMsg, posterLoadFailMsg, iconLoadFailMsg]

/-- C5, instantiated at a concrete state and a 640 by 480 base image. -/
theorem c5_witness :
    demoState.selectedPoster = some "P" ∧ demoState.symbolImageUrl = some "I" ∧
    ((∀ env : DownloadEnv, (handleDownload demoState env).state.isDownloading = false) ∧
     (∀ W H : ℚ,
       (handleDownload demoState ⟨some (W, H), true, false⟩).state.error = some noCtxMsg ∧
       (handleDownload demoState ⟨some (W, H), true, false⟩).ops = [] ∧
       (handleDownload demoState ⟨some (W, H), true, false⟩).artifact = none ∧
       (handleDownload demoState ⟨some (W, H), true, false⟩).state.error ≠
         (handleDownload demoState ⟨none, true, true⟩).state.error ∧
       (handleDownload demoState ⟨some (W, H), true, false⟩).state.error ≠
         (handleDownload demoState ⟨some (W, H), false, true⟩).state.error)) :=
  ⟨rfl, rfl, c5_flag_cleared demoState "P" "I" rfl rfl⟩

/-- C6: a successful generation with candidate list p :: rest stores the
whole list and selects its first element by default (and the result view
is rendered, with exactly the one selectedPoster reference selected);
any later selection of a candidate changes only the selectedPoster
field, leaving the stored set — hence its size — unchanged. -/
theorem c6_selection (s : AppState) (p u : String) (rest : List String)
    (hform : formComplete s = true) :
    (let r := handleGenerateClick s (.ok (some (p :: rest), some u))
     r.generatedPosters = some (p :: rest) ∧ r.selectedPoster = some p ∧
       r.symbolImageUrl = some u ∧ r.error = none ∧ r.isLoading = false ∧
       showsResults r = true) ∧
    (∀ (q : String) (t : AppState),
      selectPoster q t = { t with selectedPoster := some q }) := by
  refine ⟨?_, fun q t => rfl⟩
  simp [handleGenerateClick, hform, showsResults]

/-- C6, instantiated with two candidates in a concrete complete form. -/
theorem c6_witness :
    formComplete demoState = true ∧
    ((let r := handleGenerateClick demoState (.ok (some ("p1" :: ["p2"]), some "u"))
      r.generatedPosters = some ("p1" :: ["p2"]) ∧ r.selectedPoster = some "p1" ∧
        r.symbolImageUrl = some "u" ∧ r.error = none ∧ r.isLoading = false ∧
        showsResults r = true) ∧
     (∀ (q : String) (t : AppState),
       selectPoster q t = { t with selectedPoster := some q })) :=
  ⟨by decide, c6_selection demoState "p1" "u" ["p2"] (by decide)⟩

/-- C7: a generation whose poster call resolves with an empty candidate
list ends in the failure state — the empty-result error message is set,
no poster list is stored, nothing is selected, no icon is kept, loading
is off and the result view is not rendered — regardless of what the icon
call returned. -/
theorem c7_empty_result_failure (s : AppState) (sym : Option String)
    (hform : formComplete s = true) :
    let r := handleGenerateClick s (.ok (some [], sym))
    r.error = some noPostersMsg ∧ r.generatedPosters = none ∧
      r.selectedPoster = none ∧ r.symbolImageUrl = none ∧
      r.isLoading = false ∧ showsResults r = false := by
  simp [handleGenerateClick, hform, showsResults]

/-- C7, instantiated at a concrete complete form with a successful icon
call alongside the empty poster list. -/
theorem c7_witness :
    formComplete demoState = true ∧
    (let r := handleGenerateClick demoState (.ok (some [], some "u"))
     r.error = some noPostersMsg ∧ r.generatedPosters = none ∧
       r.selectedPoster = none ∧ r.symbolImageUrl = none ∧
       r.isLoading = false ∧ showsResults r = false) :=
  ⟨by decide, c7_empty_result_failure demoState (some "u") (by decide)⟩

/-- The selection invariant: a non-null selectedPoster is always a
member of a non-null generatedPosters list. -/
def SelInv (s : AppState) : Prop :=
  ∀ p, s.selectedPoster = some p → ∃ l, s.generatedPosters = some l ∧ p ∈ l

lemma selInv_imageChange (f : Option String) {s : AppState} (ih : SelInv s) :
    SelInv (handleImageChange f s) := by
  intro p hp
  cases f with
  | none => exact ih p hp
  | some f' => simp [handleImageChange] at hp

lemma selInv_select (q : String) (l : List String) {s : AppState}
    (hg : s.generatedPosters = some l) (hm : q ∈ l) :
    SelInv (selectPoster q s) := by
  intro p hp
  simp only [selectPoster, Option.some.injEq] at hp
  subst hp
  exact ⟨l, hg, hm⟩

lemma selInv_generate (s : AppState) (gen : GenOutcome) (ih : SelInv s) :
    SelInv (handleGenerateClick s gen) := by
  intro p hp
  cases hf : formComplete s with
  | false =>
      simp only [handleGenerateClick, hf, Bool.not_false, if_true] at hp ⊢
      exact ih p hp
  | true =>
      cases gen with
      | error msg => simp [handleGenerateClick, hf] at hp
      | ok v =>
          obtain ⟨op, osym⟩ := v
          cases op with
          | none => simp [handleGenerateClick, hf] at hp
          | some posters =>
              cases posters with
              | nil => simp [handleGenerateClick, hf] at hp
              | cons q t =>
                  cases osym with
                  | some u =>
                      simp [handleGenerateClick, hf] at hp
                      exact ⟨q :: t, by simp [handleGenerateClick, hf], by simp [hp]⟩
                  | none =>
                      simp [handleGenerateClick, hf] at hp
                      exact ⟨q :: t, by simp [handleGenerateClick, hf], by simp [hp]⟩

lemma selInv_download (s : AppState) (env : DownloadEnv) (ih : SelInv s) :
    SelInv (handleDownload s env).state := by
  have hframe : (handleDownload s env).state.selectedPoster = s.selectedPoster ∧
      (handleDownload s env).state.generatedPosters = s.generatedPosters := by
    rcases env with ⟨pl, sl, ctx⟩
    unfold handleDownload
    cases hg : (s.selectedPoster.isNone || s.symbolImageUrl.isNone) with
    | true => simp [hg]
    | false => rcases pl with _ | ⟨w, h⟩ <;> cases sl <;> cases ctx <;> simp [hg]
  intro p hp
  rw [hframe.1] at hp
  obtain ⟨l, hl, hm⟩ := ih p hp
  exact ⟨l, by rw [hframe.2]; exact hl, hm⟩

/-- C8: in every reachable state, a non-null selectedPoster is a member
of the (non-null) generatedPosters list; every transition — generation
with any outcome, thumbnail selection (which the view only offers for
members of the stored list), photo upload, reset, download, text and
font edits — preserves this. -/
theorem c8_selected_member (s : AppState) (h : Reachable s) : SelInv s := by
  induction h with
  | init => intro p hp; simp [initialState] at hp
  | imageChange f _ ih => exact selInv_imageChange f ih
  | editName v _ ih => exact fun p hp => ih p hp
  | editDistrict v _ ih => exact fun p hp => ih p hp
  | editSymbol v _ ih => exact fun p hp => ih p hp
  | editFont v _ ih => exact fun p hp => ih p hp
  | generate gen _ ih => exact selInv_generate _ gen ih
  | select q l _ hg hm _ => exact selInv_select q l hg hm
  | reset _ ih => intro p hp; simp [handleReset] at hp
  | download env _ ih => exact selInv_download _ env ih

/-- A reachable state with a selected poster: complete the form, then
generate successfully with two candidates. -/
def c8Demo : AppState :=
  handleGenerateClick
    (updateDistrict "d" (updateSymbol "y" (updateName "n"
      (handleImageChange (some "photo.jpg") initialState))))
    (.ok (some ["p1", "p2"], some "u"))

/-- C8, instantiated at the concrete reachable state c8Demo. -/
theorem c8_witness :
    c8Demo.selectedPoster = some "p1" ∧
    (∃ l, c8Demo.generatedPosters = some l ∧ "p1" ∈ l) := by
  refine ⟨by decide, c8_selected_member c8Demo ?_ "p1" (by decide)⟩
  exact Reachable.generate _ (Reachable.editDistrict _ (Reachable.editSymbol _
    (Reachable.editName _ (Reachable.imageChange _ Reachable.init))))

end PosterApp
